import Mathlib

/-!
Shallow embedding of the BigQuery-AI orchestration layer and proofs about it.

The Python source is a thin wrapper over a warehouse client handle.  Every
module builds a SQL string, submits it through the client, shapes the rows it
gets back, and best-effort writes an audit row.  The embedding below models

* the warehouse client as an environment record: each query submission is a
  function from the inputs that determine the built SQL string to an outcome
  (either a raised exception or a list of result rows);
* Python exceptions as `Except String`;
* Python floats as exact rationals (`ℚ`), with the one genuinely real-valued
  operation (`** 0.5` in `Forecaster._calculate_std`) mapped to `Real.sqrt`;
* warehouse-side mutable state (the audit tables, the temporary forecasting
  table, the count of issued `delete_table` calls) as explicitly threaded
  values.

Each definition carries a comment naming the Python function it embeds.
-/

namespace BigQueryAI

/-- Outcome of one warehouse query submission
(`client.query(q)` followed by `list(query_job.result())`):
either the call raised, or it returned a list of result rows. -/
inductive QueryOutcome (ρ : Type) where
  | raises (msg : String)
  | rows (rs : List ρ)
  deriving DecidableEq

/-- Outcome of one best-effort audit insert
(`client.insert_rows_json(audit_table, [row])` inside a `try`):
the insert succeeded, returned a non-empty per-row error list, or raised. -/
inductive AuditOutcome where
  | ok
  | rowErrors
  | raises
  deriving DecidableEq

/-! ## Forecaster (`src/generative_ai/forecaster.py`) -/

/-- Warehouse-side state visible to `Forecaster.forecast` for an inline call:
how many tables were created by `client.create_table` and how many
`client.delete_table` calls were issued. -/
structure ClientState where
  tablesCreated : Nat
  deleteCalls : Nat
  deriving DecidableEq

/-- Behaviour of the collaborating warehouse during one inline
`Forecaster.forecast` call. -/
structure ForecastEnv where
  /-- `client.create_table(table, exists_ok=True)` raises. -/
  createTableRaises : Bool
  /-- `client.insert_rows_json(temp_table_id, time_series_data)` returns a
  non-empty error list, so `_create_temp_table` raises `ValueError`. -/
  insertTempTableErrors : Bool
  /-- `client.query(query)` / `query_job.result()` raises. -/
  queryRaises : Bool
  /-- Number of rows the forecast query returns. -/
  queryRowCount : Nat
  /-- The `ai_forecast_result` value of the first row is a dict, so the
  `.get` calls performed on it after the success-path cleanup succeed. -/
  resultIsStruct : Bool
  deriving DecidableEq

/-- `Forecaster._cleanup_temp_table`: always issues one
`client.delete_table(temp_table_id, not_found_ok=True)`; an exception from
the delete is caught and only logged, so the call itself never raises. -/
def cleanupTempTable (st : ClientState) : ClientState :=
  { st with deleteCalls := st.deleteCalls + 1 }

/-- `Forecaster._create_temp_table`: runs `client.create_table` and then
`client.insert_rows_json`; raises `ValueError` when the insert reports
errors.  Note the table has already been created when the insert fails. -/
def createTempTable (env : ForecastEnv) (st : ClientState) :
    Except String Unit × ClientState :=
  if env.createTableRaises then
    (Except.error "create_table raised", st)
  else
    let st := { st with tablesCreated := st.tablesCreated + 1 }
    if env.insertTempTableErrors then
      (Except.error "Failed to insert data into temp table", st)
    else
      (Except.ok (), st)

/-- `Forecaster.forecast` for inline time-series data, tracked at the level of
temp-table bookkeeping.  Control flow follows the source:
the `except` handler cleans up only when `'temp_table_id' in locals()`, i.e.
only when `_create_temp_table` returned; the success path cleans up once
before `_store_forecast` (which swallows its own failures); an exception
raised after that cleanup (the `forecast_result.get(...)` calls on a
non-dict value) re-enters the handler, which cleans up a second time. -/
def forecastInline (env : ForecastEnv) (st : ClientState) :
    Except String Unit × ClientState :=
  match createTempTable env st with
  | (Except.error e, st) =>
      -- `temp_table_id` was never bound in `forecast`, so the handler's
      -- `if 'temp_table_id' in locals()` guard is false: no cleanup.
      (Except.error e, st)
  | (Except.ok _, st) =>
      if env.queryRaises then
        (Except.error "query raised", cleanupTempTable st)
      else if env.queryRowCount = 0 then
        (Except.error "No results returned from AI.FORECAST", cleanupTempTable st)
      else
        -- success-path cleanup, then best-effort `_store_forecast`
        let st := cleanupTempTable st
        if env.resultIsStruct then
          (Except.ok (), st)
        else
          -- `forecast_result.get('forecast_values', [])` raised
          -- `AttributeError`; the handler cleans up again and re-raises
          (Except.error "ai_forecast_result does not support get", cleanupTempTable st)

/-- Mean used by `Forecaster._calculate_std`: `sum(values) / len(values)`. -/
def calcMean (values : List ℚ) : ℚ :=
  values.sum / values.length

/-- The `variance` local of `Forecaster._calculate_std`:
`sum((x - mean) ** 2 for x in values) / (len(values) - 1)`. -/
def calcVariance (values : List ℚ) : ℚ :=
  (values.map (fun x => (x - calcMean values) ^ 2)).sum / ((values.length : ℚ) - 1)

/-- `Forecaster._calculate_std`: returns `0.0` for fewer than two values,
otherwise `variance ** 0.5`, the real square root of the Bessel-corrected
sample variance. -/
noncomputable def calculateStd (values : List ℚ) : ℝ :=
  if values.length < 2 then 0 else Real.sqrt (calcVariance values)

/-! ## TextGenerator (`src/generative_ai/text_generator.py`) -/

/-- Sampling parameters of `TextGenerator.generate_text`
(floats modelled as exact rationals). -/
structure GenParams where
  temperature : ℚ
  maxTokens : Int
  topP : ℚ
  topK : Int
  deriving DecidableEq

/-- One result row of the `ML.GENERATE_TEXT` query: the code reads
`results[0].get('generated_text', '')`. -/
structure TextRow where
  generated_text : String
  deriving DecidableEq

/-- Behaviour of the collaborators during `TextGenerator` calls.  The built
SQL string is a function of the prompt, the sampling parameters and the
model name, so the warehouse is modelled as a function of those inputs. -/
structure TextGenEnv where
  run : String → GenParams → String → QueryOutcome TextRow
  audit : AuditOutcome
  genId : String

/-- The success record `TextGenerator.generate_text` returns (its
`parameters` and `metadata` sub-dicts flattened into fields). -/
structure GenerationRecord where
  id : String
  generated_text : String
  model_name : String
  temperature : ℚ
  max_tokens : Int
  top_p : ℚ
  top_k : Int
  input_length : Nat
  output_length : Nat
  deriving DecidableEq

/-- `TextGenerator._store_generation`: best-effort insert of the generated
text into the `generated_content` audit table.  A raised exception or a
non-empty per-row error list is caught/logged and the row is simply not
recorded; nothing propagates.  The audit table is modelled as the list of
recorded generated texts. -/
def storeGeneration (env : TextGenEnv) (auditTable : List String)
    (generatedText : String) : List String :=
  match env.audit with
  | AuditOutcome.ok => auditTable ++ [generatedText]
  | AuditOutcome.rowErrors => auditTable
  | AuditOutcome.raises => auditTable

/-- `TextGenerator.generate_text`: builds and runs the `ML.GENERATE_TEXT`
query, raises `ValueError` on zero rows, otherwise extracts
`generated_text`, best-effort stores it, and returns the success record. -/
def generateText (env : TextGenEnv) (auditTable : List String)
    (prompt model_name : String) (params : GenParams) :
    Except String GenerationRecord × List String :=
  match env.run prompt params model_name with
  | QueryOutcome.raises m => (Except.error m, auditTable)
  | QueryOutcome.rows [] =>
      (Except.error "No results returned from ML.GENERATE_TEXT", auditTable)
  | QueryOutcome.rows (r :: _) =>
      let generated_text := r.generated_text
      let auditTable := storeGeneration env auditTable generated_text
      (Except.ok
        { id := env.genId
          generated_text := generated_text
          model_name := model_name
          temperature := params.temperature
          max_tokens := params.maxTokens
          top_p := params.topP
          top_k := params.topK
          input_length := prompt.length
          output_length := generated_text.length },
       auditTable)

/-- One entry of the list `TextGenerator.batch_generate_text` returns:
either the success record of `generate_text`, or the error-tagged dict
`\x7b'error': str(e), 'prompt': prompt, 'status': 'failed'\x7d`. -/
inductive BatchTextItem where
  | success (r : GenerationRecord)
  | failure (error : String) (prompt : String) (status : String)
  deriving DecidableEq

/-- `TextGenerator.batch_generate_text`: iterates the prompts sequentially,
catching each item's exception into an error-tagged entry. -/
def batchGenerateText (env : TextGenEnv) (auditTable : List String)
    (prompts : List String) (model_name : String) (params : GenParams) :
    List BatchTextItem × List String :=
  match prompts with
  | [] => ([], auditTable)
  | p :: ps =>
      let (res, auditTable) := generateText env auditTable p model_name params
      let item :=
        match res with
        | Except.ok r => BatchTextItem.success r
        | Except.error e => BatchTextItem.failure e p "failed"
      let (rest, auditTable) := batchGenerateText env auditTable ps model_name params
      (item :: rest, auditTable)

/-! ## EmbeddingGenerator (`src/vector_search/embeddings.py`) -/

/-- One result row of the `ML.GENERATE_EMBEDDING` query; the code reads
`ml_generate_embedding_result` (the vector) and
`ml_generate_embedding_metadata` (modelled as an opaque string). -/
structure EmbRow where
  ml_generate_embedding_result : List ℚ
  ml_generate_embedding_metadata : String
  deriving DecidableEq

/-- Behaviour of the collaborators during `EmbeddingGenerator` calls; the
built SQL string is a function of the content and the model name.
`sha256Hex` models `hashlib.sha256(content.encode()).hexdigest()`. -/
structure EmbGenEnv where
  run : String → String → QueryOutcome EmbRow
  audit : AuditOutcome
  genId : String
  sha256Hex : String → String

/-- A row of the warehouse-resident `embeddings` table, as written by
`EmbeddingGenerator._store_embedding` and read back by
`get_embedding_by_hash`. -/
structure StoredEmbeddingRow where
  id : String
  content_type : String
  content_hash : String
  embedding_vector : List ℚ
  model_name : String
  dimensions : Int
  metadata : String
  deriving DecidableEq

/-- The record `EmbeddingGenerator.generate_embedding` and
`get_embedding_by_hash` return. -/
structure EmbeddingRecord where
  id : String
  content_type : String
  content_hash : String
  embedding_vector : List ℚ
  model_name : String
  dimensions : Int
  metadata : String
  deriving DecidableEq

/-- The row dict `EmbeddingGenerator._store_embedding` builds: its
`dimensions` field is `len(embedding_vector)`. -/
def mkStoredEmbeddingRow (embedding_id content_type content_hash : String)
    (embedding_vector : List ℚ) (model_name metadata : String) :
    StoredEmbeddingRow :=
  { id := embedding_id
    content_type := content_type
    content_hash := content_hash
    embedding_vector := embedding_vector
    model_name := model_name
    dimensions := embedding_vector.length
    metadata := metadata }

/-- `EmbeddingGenerator._store_embedding`: best-effort insert into the
`embeddings` audit table; failures are caught/logged and the row is not
recorded. -/
def storeEmbedding (env : EmbGenEnv) (table : List StoredEmbeddingRow)
    (row : StoredEmbeddingRow) : List StoredEmbeddingRow :=
  match env.audit with
  | AuditOutcome.ok => table ++ [row]
  | AuditOutcome.rowErrors => table
  | AuditOutcome.raises => table

/-- `EmbeddingGenerator.generate_embedding`: hashes the content, runs the
embedding query, raises `ValueError` on zero rows, best-effort stores the
row, and returns the record with `dimensions = len(embedding_vector)`. -/
def generateEmbedding (env : EmbGenEnv) (table : List StoredEmbeddingRow)
    (content content_type model_name : String) :
    Except String EmbeddingRecord × List StoredEmbeddingRow :=
  let content_hash := env.sha256Hex content
  match env.run content model_name with
  | QueryOutcome.raises m => (Except.error m, table)
  | QueryOutcome.rows [] =>
      (Except.error "No results returned from ML.GENERATE_EMBEDDING", table)
  | QueryOutcome.rows (r :: _) =>
      let embedding_vector := r.ml_generate_embedding_result
      let metadata := r.ml_generate_embedding_metadata
      let table := storeEmbedding env table
        (mkStoredEmbeddingRow env.genId content_type content_hash
          embedding_vector model_name metadata)
      (Except.ok
        { id := env.genId
          content_type := content_type
          content_hash := content_hash
          embedding_vector := embedding_vector
          model_name := model_name
          dimensions := embedding_vector.length
          metadata := metadata },
       table)

/-- One entry of the list `EmbeddingGenerator.batch_generate_embeddings`
returns: a success record or the error-tagged dict
`\x7b'error': str(e), 'content': content, 'status': 'failed'\x7d`. -/
inductive BatchEmbItem where
  | success (r : EmbeddingRecord)
  | failure (error : String) (content : String) (status : String)
  deriving DecidableEq

/-- `EmbeddingGenerator.batch_generate_embeddings`: iterates the contents
sequentially, catching each item's exception into an error-tagged entry. -/
def batchGenerateEmbeddings (env : EmbGenEnv) (table : List StoredEmbeddingRow)
    (contents : List String) (content_type model_name : String) :
    List BatchEmbItem × List StoredEmbeddingRow :=
  match contents with
  | [] => ([], table)
  | c :: cs =>
      let (res, table) := generateEmbedding env table c content_type model_name
      let item :=
        match res with
        | Except.ok r => BatchEmbItem.success r
        | Except.error e => BatchEmbItem.failure e c "failed"
      let (rest, table) := batchGenerateEmbeddings env table cs content_type model_name
      (item :: rest, table)

/-- `EmbeddingGenerator.get_embedding_by_hash`: runs a
`SELECT ... WHERE content_hash = '...' LIMIT 1` against the `embeddings`
table and, when a row comes back, returns a record whose `dimensions` field
is the stored `row.dimensions` value (not recomputed from the vector).
Any exception is caught and `None` is returned. -/
def getEmbeddingByHash (queryRaises : Bool) (table : List StoredEmbeddingRow)
    (content_hash : String) : Option EmbeddingRecord :=
  if queryRaises then none
  else
    match table.find? (fun r => r.content_hash = content_hash) with
    | none => none
    | some row =>
        some
          { id := row.id
            content_type := row.content_type
            content_hash := row.content_hash
            embedding_vector := row.embedding_vector
            model_name := row.model_name
            dimensions := row.dimensions
            metadata := row.metadata }

/-! ## VectorSearch (`src/vector_search/vector_search.py`) -/

/-- A caller-supplied filter value in `filter_conditions`.  The source
dispatches on `isinstance`: strings are quoted, numbers interpolated
unquoted (numbers are modelled as integers here), lists become `IN` tests
whose element quoting follows the type of `value[0]` (the well-defined,
homogeneous, non-empty case is modelled), and any other type is silently
skipped by the builder loop. -/
inductive FilterValue where
  | str (v : String)
  | num (v : Int)
  | strList (head : String) (tail : List String)
  | numList (head : Int) (tail : List Int)
  | other
  deriving DecidableEq

/-- One entry of the `where_conditions` list built by
`VectorSearch._build_filtered_vector_search_query`, or `none` when the
value's type matches no `isinstance` branch. -/
def renderFilterCondition (column : String) : FilterValue → Option String
  | FilterValue.str v =>
      some ("`" ++ column ++ "` = \x27" ++ v ++ "\x27")
  | FilterValue.num v =>
      some ("`" ++ column ++ "` = " ++ toString v)
  | FilterValue.strList h t =>
      some ("`" ++ column ++ "` IN (" ++
        String.intercalate ", " ((h :: t).map (fun v => "\x27" ++ v ++ "\x27")) ++ ")")
  | FilterValue.numList h t =>
      some ("`" ++ column ++ "` IN (" ++
        String.intercalate ", " ((h :: t).map toString) ++ ")")
  | FilterValue.other => none

/-- The `where_conditions` list: one rendered condition per filter entry, in
dict insertion order (the filter map is modelled as an association list). -/
def buildWhereConditions (filterConditions : List (String × FilterValue)) :
    List String :=
  filterConditions.filterMap (fun kv => renderFilterCondition kv.1 kv.2)

/-- The `where_sql` local:
`where_clause = " AND ".join(where_conditions) if where_conditions else ""`
followed by `where_sql = f"WHERE \x7bwhere_clause\x7d" if where_clause else ""`. -/
def whereSqlOf (filterConditions : List (String × FilterValue)) : String :=
  let conds := buildWhereConditions filterConditions
  let whereClause := if conds.isEmpty then "" else String.intercalate " AND " conds
  if whereClause = "" then "" else "WHERE " ++ whereClause

/-- Text of the filtered query before the `where_sql` interpolation point
(`embeddingStr` stands for `str(query_embedding)`). -/
def filteredQueryHeader (embeddingStr tableId embeddingColumn : String)
    (topK : Int) (distanceType : String) : String :=
  "\n        SELECT \n            *,\n            VECTOR_SEARCH(\n                "
    ++ embeddingColumn
    ++ ",\n                \x27" ++ embeddingStr
    ++ "\x27,\n                top_k => " ++ toString topK
    ++ ",\n                distance_type => \x27" ++ distanceType
    ++ "\x27\n            ) as similarity_score\n        FROM `"
    ++ tableId ++ "`\n        "

/-- Text of the filtered query after the `where_sql` interpolation point:
descending order on the similarity score and a `LIMIT top_k`. -/
def orderLimitTail (topK : Int) : String :=
  "\n        ORDER BY similarity_score DESC\n        LIMIT "
    ++ toString topK ++ "\n        "

/-- `VectorSearch._build_filtered_vector_search_query`: the f-string of the
source, split at the `\x7bwhere_sql\x7d` interpolation point. -/
def buildFilteredVectorSearchQuery (embeddingStr tableId embeddingColumn : String)
    (filterConditions : List (String × FilterValue)) (topK : Int)
    (distanceType : String) : String :=
  filteredQueryHeader embeddingStr tableId embeddingColumn topK distanceType
    ++ whereSqlOf filterConditions
    ++ orderLimitTail topK

/-- `VectorSearch._build_vector_search_query` (the unfiltered variant used
by `search_similar`); identical to the filtered query with no WHERE part
and no interpolation gap. -/
def buildVectorSearchQuery (embeddingStr tableId embeddingColumn : String)
    (topK : Int) (distanceType : String) : String :=
  "\n        SELECT \n            *,\n            VECTOR_SEARCH(\n                "
    ++ embeddingColumn
    ++ ",\n                \x27" ++ embeddingStr
    ++ "\x27,\n                top_k => " ++ toString topK
    ++ ",\n                distance_type => \x27" ++ distanceType
    ++ "\x27\n            ) as similarity_score\n        FROM `"
    ++ tableId
    ++ "`\n        ORDER BY similarity_score DESC\n        LIMIT "
    ++ toString topK ++ "\n        "

/-- One row returned by the vector-search query: the `similarity_score`
column popped by `_process_search_results` plus the remaining row data
(modelled as key/value pairs of rendered column values). -/
structure SearchRow where
  similarity_score : Option ℚ
  data : List (String × String)
  deriving DecidableEq

/-- One entry of the `results` list in the record `search_similar` returns:
`\x7b'similarity_score': ..., 'data': ...\x7d`. -/
structure ProcessedResult where
  similarity_score : Option ℚ
  data : List (String × String)
  deriving DecidableEq

/-- `VectorSearch._process_search_results`. -/
def processSearchResults (results : List SearchRow) : List ProcessedResult :=
  results.map (fun r => { similarity_score := r.similarity_score, data := r.data })

/-- Behaviour of the collaborators during `VectorSearch.search_similar`:
the warehouse outcome is a function of the built SQL string, and
`listStr` models Python's `str(query_embedding)` rendering. -/
structure SearchEnv where
  run : String → QueryOutcome SearchRow
  audit : AuditOutcome
  genId : String
  listStr : List ℚ → String

/-- The record `VectorSearch.search_similar` returns (the `metadata`
sub-dict flattened into fields). -/
structure SearchResponse where
  id : String
  results : List ProcessedResult
  total_results : Nat
  query_vector_dimensions : Nat
  distance_type : String
  top_k : Int
  deriving DecidableEq

/-- `VectorSearch.search_similar`: runs the vector-search query; when it
returns zero rows the code logs a warning and RETURNS an empty-result
record (it does not raise); otherwise it shapes the rows, best-effort
stores the search (swallowed), and returns the populated record. -/
def searchSimilar (env : SearchEnv) (queryEmbedding : List ℚ)
    (tableId embeddingColumn : String) (topK : Int) (distanceType : String) :
    Except String SearchResponse :=
  match env.run (buildVectorSearchQuery (env.listStr queryEmbedding) tableId
      embeddingColumn topK distanceType) with
  | QueryOutcome.raises m => Except.error m
  | QueryOutcome.rows [] =>
      Except.ok
        { id := env.genId
          results := []
          total_results := 0
          query_vector_dimensions := queryEmbedding.length
          distance_type := distanceType
          top_k := topK }
  | QueryOutcome.rows rs =>
      let processed := processSearchResults rs
      Except.ok
        { id := env.genId
          results := processed
          total_results := processed.length
          query_vector_dimensions := queryEmbedding.length
          distance_type := distanceType
          top_k := topK }

/-! ## ObjectRefProcessor (`src/multimodal/object_ref.py`) -/

/-- Python `s.startswith(pre)`, modelled on the underlying character
lists. -/
def strStartsWith (s pre : String) : Bool :=
  pre.data.isPrefixOf s.data

/-- Python `s.count(c)` for a single character. -/
def strCountChar (s : String) (c : Char) : Nat :=
  s.data.count c

/-- `ObjectRefProcessor._validate_object_ref`: raises `ValueError` when the
reference does not start with `gs://`, or when the WHOLE string contains
fewer than two `/` characters (note the scheme's own two slashes are
counted); performs no existence check on the referenced object. -/
def validateObjectRef (objectRef : String) : Except String Unit :=
  if ¬ strStartsWith objectRef "gs://" then
    Except.error "ObjectRef must start with \x27gs://\x27"
  else if ¬ (2 ≤ strCountChar objectRef '/') then
    Except.error "ObjectRef must have format: gs://bucket/path"
  else
    Except.ok ()

/-- `ObjectRefProcessor.create_object_ref`: builds
`f"gs://\x7bbucket_name\x7d/\x7bfile_path\x7d"`, validates it, best-effort stores
metadata (failures swallowed by `_store_object_ref_metadata`), and returns
the reference string. -/
def createObjectRef (bucketName filePath : String) : Except String String :=
  let objectRef := "gs://" ++ bucketName ++ "/" ++ filePath
  match validateObjectRef objectRef with
  | Except.error e => Except.error e
  | Except.ok _ => Except.ok objectRef

/-- The acceptance rule as the specification words it: a
`scheme://bucket/path`-shaped string, i.e. the `gs://` prefix followed by a
portion that itself contains at least two `/` separators beyond the
scheme.  Stated for comparison with `validateObjectRef`. -/
def claimObjectRefAccepted (s : String) : Bool :=
  strStartsWith s "gs://" && decide (2 ≤ (s.data.drop 5).count '/')

/-! ## ContentGenerator (`src/generative_ai/content_generator.py`) -/

/-- A Python value appearing in generated structured content, as far as
`type(x).__name__` distinguishes it in `_validate_schema_compliance`. -/
inductive PyVal where
  | str (s : String)
  | int (n : Int)
  | float (q : ℚ)
  | bool (b : Bool)
  | list
  | dict
  | pyNone
  deriving DecidableEq

/-- Python `type(x).__name__` for the modelled values. -/
def PyVal.typeName : PyVal → String
  | PyVal.str _ => "str"
  | PyVal.int _ => "int"
  | PyVal.float _ => "float"
  | PyVal.bool _ => "bool"
  | PyVal.list => "list"
  | PyVal.dict => "dict"
  | PyVal.pyNone => "NoneType"

/-- Generated content: a JSON object, modelled as an association list in
dict insertion order (Python dict keys are unique). -/
def Content := List (String × PyVal)

/-- Python `field in content` on the modelled dict. -/
def containsKey (content : Content) (f : String) : Bool :=
  content.any (fun kv => kv.1 = f)

/-- Python `content[field]` on the modelled dict (first binding wins, which
agrees with a dict whose keys are unique). -/
def lookupKey (content : Content) (f : String) : Option PyVal :=
  (List.find? (fun kv => kv.1 = f) content).map (fun kv => kv.2)

/-- The schema argument of `_validate_schema_compliance`: its `required`
list and its `properties` map, each property reduced to the
`field_schema.get('type')` value the code consults. -/
structure JsonSchema where
  required : List String
  properties : List (String × Option String)
  deriving DecidableEq

/-- The compliance report built by `_validate_schema_compliance`. -/
structure ComplianceReport where
  is_compliant : Bool
  missing_fields : List String
  extra_fields : List String
  type_mismatches : List String
  deriving DecidableEq

/-- The f-string
`f"\x7bfield\x7d: expected \x7bexpected_type\x7d, got \x7bactual_type\x7d"`. -/
def mismatchMsg (field expected actual : String) : String :=
  field ++ ": expected " ++ expected ++ ", got " ++ actual

/-- The type-compliance branch body for one property entry: mirrors the
`string` / `integer` / `number` `elif` chain of the source (any other
declared type is never reported). -/
def typeMismatchFor (content : Content) (field : String)
    (declaredType : Option String) : Option String :=
  match lookupKey content field with
  | none => none
  | some v =>
      match declaredType with
      | none => none
      | some expected =>
          let actual := v.typeName
          if expected = "string" then
            if actual ≠ "str" then some (mismatchMsg field expected actual) else none
          else if expected = "integer" then
            if actual ≠ "int" ∧ actual ≠ "int64" then
              some (mismatchMsg field expected actual)
            else none
          else if expected = "number" then
            if actual ≠ "float" ∧ actual ≠ "int" ∧ actual ≠ "int64" then
              some (mismatchMsg field expected actual)
            else none
          else none

/-- `ContentGenerator._validate_schema_compliance`: required-field presence,
extra-field detection and primitive type matching.  `is_compliant` is
flipped to `False` exactly when a missing field or a type mismatch is
appended (extra fields do not affect it). -/
def validateSchemaCompliance (content : Content) (schema : JsonSchema) :
    ComplianceReport :=
  let missing := schema.required.filter (fun f => ¬ containsKey content f)
  let extra := (content.map Prod.fst).filter
    (fun f => ¬ schema.properties.any (fun kv => kv.1 = f))
  let mismatches := schema.properties.filterMap
    (fun kv => typeMismatchFor content kv.1 kv.2)
  { is_compliant := missing.isEmpty && mismatches.isEmpty
    missing_fields := missing
    extra_fields := extra
    type_mismatches := mismatches }

/-! ## HTTP layer (`src/main.py`) -/

/-- Request body of `POST /api/v1/generate/text` and items of its batch
variant. -/
structure TextGenerationRequest where
  prompt : String
  model_name : String
  temperature : ℚ
  max_tokens : Int
  top_p : ℚ
  top_k : Int
  deriving DecidableEq

/-- The sampling parameters carried by a request. -/
def TextGenerationRequest.params (r : TextGenerationRequest) : GenParams :=
  { temperature := r.temperature
    maxTokens := r.max_tokens
    topP := r.top_p
    topK := r.top_k }

/-- Response body of the batch text endpoint. -/
structure BatchTextResponse where
  results : List BatchTextItem
  total_processed : Nat
  successful : Nat
  deriving DecidableEq

/-- Handler of `POST /api/v1/generate/text/batch`: extracts the prompts,
takes `requests[0]` for the parameters of EVERY generation, and wraps any
exception (including the `IndexError` on an empty list) into an
`HTTPException(500)`. -/
def batchGenerateTextEndpoint (env : TextGenEnv) (auditTable : List String)
    (requests : List TextGenerationRequest) : Except Nat BatchTextResponse :=
  match requests with
  | [] => Except.error 500
  | first :: rest =>
      let prompts := (first :: rest).map (fun r => r.prompt)
      let result :=
        (batchGenerateText env auditTable prompts first.model_name first.params).1
      Except.ok
        { results := result
          total_processed := result.length
          successful := (result.filter
            (fun r => match r with
              | BatchTextItem.success _ => true
              | BatchTextItem.failure _ _ _ => false)).length }

/-- Request body of `POST /api/v1/embeddings/generate` and items of its
batch variant. -/
structure EmbeddingRequest where
  content : String
  content_type : String
  model_name : String
  deriving DecidableEq

/-- Response body of the batch embedding endpoint. -/
structure BatchEmbResponse where
  results : List BatchEmbItem
  total_processed : Nat
  successful : Nat
  deriving DecidableEq

/-- Handler of `POST /api/v1/embeddings/generate/batch`: extracts the
contents, takes `requests[0]` for the content type and model of EVERY
generation, and wraps any exception (including the `IndexError` on an
empty list) into an `HTTPException(500)`. -/
def batchGenerateEmbeddingsEndpoint (env : EmbGenEnv)
    (table : List StoredEmbeddingRow) (requests : List EmbeddingRequest) :
    Except Nat BatchEmbResponse :=
  match requests with
  | [] => Except.error 500
  | first :: rest =>
      let contents := (first :: rest).map (fun r => r.content)
      let result :=
        (batchGenerateEmbeddings env table contents first.content_type
          first.model_name).1
      Except.ok
        { results := result
          total_processed := result.length
          successful := (result.filter
            (fun r => match r with
              | BatchEmbItem.success _ => true
              | BatchEmbItem.failure _ _ _ => false)).length }

/-!
## Theorems
-/

/-- C1: evaluation of the inline-forecast temp-table bookkeeping.  The claim
says `delete_table` is issued exactly once on every path after temp-table
creation.  The code violates it twice: when the row insert into the temp
table fails, the table has been created but `temp_table_id` is never bound
in `forecast`, so NO deletion is issued and the table leaks; and when a
step after the success-path cleanup raises (`ai_forecast_result` not a
dict), the handler issues a SECOND deletion.  The query-failure,
zero-row and fully-successful paths do delete exactly once. -/
theorem c1_temp_table_cleanup_eval :
    (forecastInline ⟨false, true, false, 1, true⟩ ⟨0, 0⟩ =
      (Except.error "Failed to insert data into temp table", ⟨1, 0⟩)) ∧
    (forecastInline ⟨false, false, false, 1, false⟩ ⟨0, 0⟩ =
      (Except.error "ai_forecast_result does not support get", ⟨1, 2⟩)) ∧
    (forecastInline ⟨false, false, false, 1, true⟩ ⟨0, 0⟩ =
      (Except.ok (), ⟨1, 1⟩)) ∧
    (forecastInline ⟨false, false, true, 0, true⟩ ⟨0, 0⟩ =
      (Except.error "query raised", ⟨1, 1⟩)) ∧
    (forecastInline ⟨false, false, false, 0, true⟩ ⟨0, 0⟩ =
      (Except.error "No results returned from AI.FORECAST", ⟨1, 1⟩)) :=
  ⟨rfl, rfl, rfl, rfl, rfl⟩

/-- C7: the standard-deviation helper returns exactly 0 for zero or one
value, returns the Bessel-corrected sample standard deviation (square root
of the sum of squared deviations from the mean divided by `n - 1`) for two
or more values, and maps `[1, 2, 3]` to `1.0`. -/
theorem c7_calculate_std :
    calculateStd [] = 0 ∧
    (∀ x : ℚ, calculateStd [x] = 0) ∧
    (∀ values : List ℚ, 2 ≤ values.length →
      calculateStd values =
        Real.sqrt (((values.map (fun x => (x - values.sum / values.length) ^ 2)).sum /
          ((values.length : ℚ) - 1) : ℚ))) ∧
    calculateStd [1, 2, 3] = 1 := by
  have hvar : calcVariance [1, 2, 3] = 1 := by
    norm_num [calcVariance, calcMean]
  refine ⟨by simp [calculateStd], fun x => by simp [calculateStd], ?_, ?_⟩
  · intro values hv
    rw [calculateStd, if_neg (by omega)]
    rfl
  · rw [calculateStd, if_neg (by norm_num), hvar]
    simp

/-- C7 witness: the general branch of `c7_calculate_std` applied at
`[1, 2, 3]`. -/
theorem c7_calculate_std_witness :
    2 ≤ ([1, 2, 3] : List ℚ).length ∧
    calculateStd [1, 2, 3] =
      Real.sqrt (((([1, 2, 3] : List ℚ).map
          (fun x => (x - ([1, 2, 3] : List ℚ).sum / (([1, 2, 3] : List ℚ).length : ℚ)) ^ 2)).sum /
        ((([1, 2, 3] : List ℚ).length : ℚ) - 1) : ℚ)) :=
  ⟨by decide, c7_calculate_std.2.2.1 [1, 2, 3] (by decide)⟩

/-- C5: the filter map `[category ↦ "doc", score ↦ 5]` is rendered as the
conjunctive clause `WHERE category = 'doc' AND score = 5` (string quoted,
number unquoted), and every built filtered query is the header, then the
WHERE clause, then `ORDER BY similarity_score DESC` and `LIMIT top_k`. -/
theorem c5_filtered_vector_search_query :
    whereSqlOf [("category", FilterValue.str "doc"), ("score", FilterValue.num 5)] =
      "WHERE `category` = \x27doc\x27 AND `score` = 5" ∧
    ∀ (es tid ec : String) (fc : List (String × FilterValue)) (tk : Int) (dt : String),
      buildFilteredVectorSearchQuery es tid ec fc tk dt =
        filteredQueryHeader es tid ec tk dt ++ whereSqlOf fc ++
          ("\n        ORDER BY similarity_score DESC\n        LIMIT " ++
            toString tk ++ "\n        ") :=
  ⟨rfl, fun _ _ _ _ _ _ => rfl⟩

/-- Helper: a message produced by the type-compliance loop at the first
property entry matching a field is in the mismatch list. -/
theorem typeMismatch_mem_of_find? (content : Content) (f : String)
    (dt : Option String) (msg : String) :
    ∀ props : List (String × Option String),
      List.find? (fun kv => kv.1 = f) props = some (f, dt) →
      typeMismatchFor content f dt = some msg →
      msg ∈ props.filterMap (fun kv => typeMismatchFor content kv.1 kv.2) := by
  intro props
  induction props with
  | nil => intro h; simp at h
  | cons kv rest ih =>
      intro hfind hmsg
      by_cases hk : kv.1 = f
      · rw [List.find?_cons_of_pos _ (by simp [hk])] at hfind
        have hkv : kv = (f, dt) := by
          injection hfind
        subst hkv
        simp only [List.filterMap_cons]
        rw [hmsg]
        exact List.mem_cons_self _ _
      · rw [List.find?_cons_of_neg _ (by simp [hk])] at hfind
        have hmem := ih hfind hmsg
        simp only [List.filterMap_cons]
        cases typeMismatchFor content kv.1 kv.2 with
        | none => exact hmem
        | some m => exact List.mem_cons_of_mem _ hmem

/-- C6: for schema `required = ["a"], properties = \x7ba: string\x7d` and
content `\x7ba: 5\x7d` the report is non-compliant with empty missing fields
and the mismatch `a: expected string, got int`; in general a field present
in the content is never reported missing, and a present field whose first
matching property declares type `string` while the value is not a `str` is
reported as a type mismatch. -/
theorem c6_schema_compliance :
    (validateSchemaCompliance [("a", PyVal.int 5)]
        { required := ["a"], properties := [("a", some "string")] } =
      { is_compliant := false, missing_fields := [], extra_fields := [],
        type_mismatches := ["a: expected string, got int"] }) ∧
    (∀ (content : Content) (schema : JsonSchema) (f : String),
      containsKey content f = true →
      f ∉ (validateSchemaCompliance content schema).missing_fields) ∧
    (∀ (content : Content) (schema : JsonSchema) (f : String) (v : PyVal),
      List.find? (fun kv => kv.1 = f) schema.properties = some (f, some "string") →
      lookupKey content f = some v →
      v.typeName ≠ "str" →
      mismatchMsg f "string" v.typeName ∈
        (validateSchemaCompliance content schema).type_mismatches) := by
  refine ⟨by decide, ?_, ?_⟩
  · intro content schema f hin hmem
    simp only [validateSchemaCompliance, List.mem_filter, decide_not] at hmem
    rw [hin] at hmem
    simp at hmem
  · intro content schema f v hfind hlook hne
    have hmsg : typeMismatchFor content f (some "string") =
        some (mismatchMsg f "string" v.typeName) := by
      simp [typeMismatchFor, hlook, hne]
    exact typeMismatch_mem_of_find? content f (some "string") _ schema.properties
      hfind hmsg

/-- C6 witness: both general branches of `c6_schema_compliance` applied to
the concrete schema/content pair of the claim. -/
theorem c6_schema_compliance_witness :
    (containsKey [("a", PyVal.int 5)] "a" = true ∧
      "a" ∉ (validateSchemaCompliance [("a", PyVal.int 5)]
        { required := ["a"], properties := [("a", some "string")] }).missing_fields) ∧
    (mismatchMsg "a" "string" (PyVal.int 5).typeName ∈
      (validateSchemaCompliance [("a", PyVal.int 5)]
        { required := ["a"], properties := [("a", some "string")] }).type_mismatches) :=
  ⟨⟨by decide,
    c6_schema_compliance.2.1 [("a", PyVal.int 5)]
      { required := ["a"], properties := [("a", some "string")] } "a" (by decide)⟩,
   c6_schema_compliance.2.2 [("a", PyVal.int 5)]
      { required := ["a"], properties := [("a", some "string")] } "a" (PyVal.int 5)
      (by decide) (by decide) (by decide)⟩

/-- Helper: any string that starts with `gs://` already contains at least
two `/` characters, because the scheme itself contributes two. -/
theorem two_slashes_of_gs (s : String) (h : strStartsWith s "gs://" = true) :
    2 ≤ strCountChar s '/' := by
  unfold strStartsWith at h
  obtain ⟨t, ht⟩ := List.isPrefixOf_iff_prefix.mp h
  unfold strCountChar
  rw [← ht, List.count_append]
  have : ("gs://".data.count '/') = 2 := by decide
  omega

/-- C9 counterexample: the string `gs://x` has no path separator beyond the
scheme (so the claim's shape rule rejects it), yet `_validate_object_ref`
accepts it — the `count('/') >= 2` test counts the two slashes of the
scheme itself. -/
theorem c9_counterexample :
    validateObjectRef "gs://x" = Except.ok () ∧
    claimObjectRefAccepted "gs://x" = false := by
  constructor
  · have h : strStartsWith "gs://x" "gs://" = true := by decide
    simp [validateObjectRef, h, two_slashes_of_gs _ h]
  · decide

/-- C9 (amended): `_validate_object_ref` accepts exactly the strings that
start with `gs://` — the slash-count test is vacuous once the prefix test
passes — and consequently `create_object_ref`, which always builds
`gs://bucket/path` itself, never raises for any bucket/path pair and
returns the built reference; no existence check is modelled because none
is performed. -/
theorem c9_validate_accepts_gs_prefixed :
    (∀ s : String, validateObjectRef s = Except.ok () ↔ strStartsWith s "gs://" = true) ∧
    (∀ b p : String, createObjectRef b p = Except.ok ("gs://" ++ b ++ "/" ++ p)) := by
  have hmain : ∀ s : String, validateObjectRef s = Except.ok () ↔
      strStartsWith s "gs://" = true := by
    intro s
    constructor
    · intro h
      by_cases hs : strStartsWith s "gs://" = true
      · exact hs
      · simp [validateObjectRef, hs] at h
    · intro hs
      simp [validateObjectRef, hs, two_slashes_of_gs s hs]
  refine ⟨hmain, fun b p => ?_⟩
  have hpre : strStartsWith ("gs://" ++ b ++ "/" ++ p) "gs://" = true := by
    unfold strStartsWith
    apply List.isPrefixOf_iff_prefix.mpr
    refine ⟨b.data ++ "/".data ++ p.data, ?_⟩
    simp [String.data_append, List.append_assoc]
  simp only [createObjectRef, (hmain _).mpr hpre]

/-- C9 witness: the amended acceptance rule applied at a concrete
well-shaped and a concrete ill-shaped reference. -/
theorem c9_validate_witness :
    validateObjectRef "gs://bucket/path/img.png" = Except.ok () ∧
    createObjectRef "bucket" "path/img.png" = Except.ok "gs://bucket/path/img.png" ∧
    validateObjectRef "s3://bucket/path" ≠ Except.ok () :=
  ⟨(c9_validate_accepts_gs_prefixed.1 "gs://bucket/path/img.png").mpr (by decide),
   c9_validate_accepts_gs_prefixed.2 "bucket" "path/img.png",
   fun h => by
     have := (c9_validate_accepts_gs_prefixed.1 "s3://bucket/path").mp h
     exact absurd this (by decide)⟩

/-- Environment for the C2 counterexample: the warehouse returns zero rows
to every query. -/
def c2SearchEnv : SearchEnv :=
  { run := fun _ => QueryOutcome.rows []
    audit := AuditOutcome.ok
    genId := "sid"
    listStr := fun _ => "[1.0]" }

/-- C2 counterexample: when the vector-search query returns zero rows,
`search_similar` does NOT raise — it returns a success record with an
empty results list, refuting the claim for the similarity-search
operation. -/
theorem c2_counterexample :
    searchSimilar c2SearchEnv [1] "proj.ds.embeddings" "embedding_vector" 10 "cosine" =
      Except.ok
        { id := "sid", results := [], total_results := 0,
          query_vector_dimensions := 1, distance_type := "cosine", top_k := 10 } :=
  rfl

/-- C2 (amended): on zero warehouse rows, text generation and embedding
generation raise a `ValueError` that propagates, while vector similarity
search returns a success record with an empty results list and
`total_results = 0` instead of raising. -/
theorem c2_zero_rows_behaviour :
    (∀ (env : TextGenEnv) (t : List String) (p m : String) (par : GenParams),
      env.run p par m = QueryOutcome.rows [] →
      (generateText env t p m par).1 =
        Except.error "No results returned from ML.GENERATE_TEXT") ∧
    (∀ (env : EmbGenEnv) (t : List StoredEmbeddingRow) (c ct m : String),
      env.run c m = QueryOutcome.rows [] →
      (generateEmbedding env t c ct m).1 =
        Except.error "No results returned from ML.GENERATE_EMBEDDING") ∧
    (∀ (env : SearchEnv) (qe : List ℚ) (tid ec : String) (tk : Int) (dt : String),
      env.run (buildVectorSearchQuery (env.listStr qe) tid ec tk dt) =
        QueryOutcome.rows [] →
      searchSimilar env qe tid ec tk dt =
        Except.ok
          { id := env.genId, results := [], total_results := 0,
            query_vector_dimensions := qe.length, distance_type := dt, top_k := tk }) := by
  refine ⟨?_, ?_, ?_⟩
  · intro env t p m par h
    simp [generateText, h]
  · intro env t c ct m h
    simp [generateEmbedding, h]
  · intro env qe tid ec tk dt h
    simp [searchSimilar, h]

/-- Environment for the C2 witness on the generation side: zero rows for
every text query. -/
def c2TextEnv : TextGenEnv :=
  { run := fun _ _ _ => QueryOutcome.rows []
    audit := AuditOutcome.ok
    genId := "gid" }

/-- Environment for the C2 witness on the embedding side: zero rows for
every embedding query. -/
def c2EmbEnv : EmbGenEnv :=
  { run := fun _ _ => QueryOutcome.rows []
    audit := AuditOutcome.ok
    genId := "eid"
    sha256Hex := fun _ => "hash" }

/-- C2 witness: the three branches of `c2_zero_rows_behaviour` applied to
concrete zero-row environments. -/
theorem c2_zero_rows_witness :
    (c2TextEnv.run "hello" ⟨7/10, 1024, 9/10, 40⟩ "gemini-pro" = QueryOutcome.rows [] ∧
      (generateText c2TextEnv [] "hello" "gemini-pro" ⟨7/10, 1024, 9/10, 40⟩).1 =
        Except.error "No results returned from ML.GENERATE_TEXT") ∧
    (c2EmbEnv.run "doc" "text-embedding-001" = QueryOutcome.rows [] ∧
      (generateEmbedding c2EmbEnv [] "doc" "text" "text-embedding-001").1 =
        Except.error "No results returned from ML.GENERATE_EMBEDDING") ∧
    searchSimilar c2SearchEnv [1, 2] "t" "col" 5 "euclidean" =
      Except.ok
        { id := c2SearchEnv.genId, results := [], total_results := 0,
          query_vector_dimensions := 2, distance_type := "euclidean", top_k := 5 } :=
  ⟨⟨rfl, c2_zero_rows_behaviour.1 c2TextEnv [] "hello" "gemini-pro"
      ⟨7/10, 1024, 9/10, 40⟩ rfl⟩,
   ⟨rfl, c2_zero_rows_behaviour.2.1 c2EmbEnv [] "doc" "text" "text-embedding-001" rfl⟩,
   c2_zero_rows_behaviour.2.2 c2SearchEnv [1, 2] "t" "col" 5 "euclidean" rfl⟩

/-- C4: a failed audit insert never changes what the operation returns.
The result component of `generate_text` / `generate_embedding` is
invariant under the audit outcome (insert raising, or reporting per-row
errors, versus succeeding), and when the primary query returned rows the
operation returns the full success record regardless. -/
theorem c4_audit_failure_non_fatal :
    (∀ (env : TextGenEnv) (a : AuditOutcome) (t : List String) (p m : String)
        (par : GenParams),
      (generateText { env with audit := a } t p m par).1 =
        (generateText { env with audit := AuditOutcome.ok } t p m par).1) ∧
    (∀ (env : EmbGenEnv) (a : AuditOutcome) (t : List StoredEmbeddingRow)
        (c ct m : String),
      (generateEmbedding { env with audit := a } t c ct m).1 =
        (generateEmbedding { env with audit := AuditOutcome.ok } t c ct m).1) ∧
    (∀ (env : TextGenEnv) (t : List String) (p m : String) (par : GenParams)
        (r : TextRow) (rest : List TextRow),
      env.run p par m = QueryOutcome.rows (r :: rest) →
      (generateText env t p m par).1 =
        Except.ok
          { id := env.genId
            generated_text := r.generated_text
            model_name := m
            temperature := par.temperature
            max_tokens := par.maxTokens
            top_p := par.topP
            top_k := par.topK
            input_length := p.length
            output_length := r.generated_text.length }) ∧
    (∀ (env : EmbGenEnv) (t : List StoredEmbeddingRow) (c ct m : String)
        (r : EmbRow) (rest : List EmbRow),
      env.run c m = QueryOutcome.rows (r :: rest) →
      (generateEmbedding env t c ct m).1 =
        Except.ok
          { id := env.genId
            content_type := ct
            content_hash := env.sha256Hex c
            embedding_vector := r.ml_generate_embedding_result
            model_name := m
            dimensions := (r.ml_generate_embedding_result.length : Int)
            metadata := r.ml_generate_embedding_metadata }) := by
  refine ⟨?_, ?_, ?_, ?_⟩
  · intro env a t p m par
    cases h : env.run p par m with
    | raises msg => simp [generateText, h]
    | rows rs => cases rs <;> simp [generateText, h]
  · intro env a t c ct m
    cases h : env.run c m with
    | raises msg => simp [generateEmbedding, h]
    | rows rs => cases rs <;> simp [generateEmbedding, h]
  · intro env t p m par r rest h
    simp [generateText, h]
  · intro env t c ct m r rest h
    simp [generateEmbedding, h]

/-- Environment for the C4 witness: one result row, but the audit insert
raises. -/
def c4TextEnv : TextGenEnv :=
  { run := fun _ _ _ => QueryOutcome.rows [⟨"generated"⟩]
    audit := AuditOutcome.raises
    genId := "gid" }

/-- Embedding environment for the C4 witness: one result row, but the
audit insert reports per-row errors. -/
def c4EmbEnv : EmbGenEnv :=
  { run := fun _ _ => QueryOutcome.rows [⟨[1, 2, 3], "md"⟩]
    audit := AuditOutcome.rowErrors
    genId := "eid"
    sha256Hex := fun _ => "hash" }

/-- C4 witness: the success-record branches of `c4_audit_failure_non_fatal`
applied to concrete environments whose audit insert fails. -/
theorem c4_audit_failure_witness :
    (c4TextEnv.run "p" ⟨1/2, 64, 9/10, 40⟩ "m" = QueryOutcome.rows [⟨"generated"⟩] ∧
      (generateText c4TextEnv [] "p" "m" ⟨1/2, 64, 9/10, 40⟩).1 =
        Except.ok
          { id := "gid", generated_text := "generated", model_name := "m",
            temperature := 1/2, max_tokens := 64, top_p := 9/10, top_k := 40,
            input_length := 1, output_length := 9 }) ∧
    (c4EmbEnv.run "doc" "m" = QueryOutcome.rows [⟨[1, 2, 3], "md"⟩] ∧
      (generateEmbedding c4EmbEnv [] "doc" "text" "m").1 =
        Except.ok
          { id := "eid", content_type := "text", content_hash := "hash",
            embedding_vector := [1, 2, 3], model_name := "m",
            dimensions := 3, metadata := "md" }) :=
  ⟨⟨rfl, c4_audit_failure_non_fatal.2.2.1 c4TextEnv [] "p" "m" ⟨1/2, 64, 9/10, 40⟩
      ⟨"generated"⟩ [] rfl⟩,
   ⟨rfl, c4_audit_failure_non_fatal.2.2.2 c4EmbEnv [] "doc" "text" "m"
      ⟨[1, 2, 3], "md"⟩ [] rfl⟩⟩

/-- A stored `embeddings`-table row whose `dimensions` column disagrees
with its vector's length (the code never checks this on the read path). -/
def c8BadRow : StoredEmbeddingRow :=
  { id := "e1", content_type := "text", content_hash := "h",
    embedding_vector := [1, 2], model_name := "m", dimensions := 3,
    metadata := "" }

/-- The record `get_embedding_by_hash` returns for `c8BadRow`: the stored
`dimensions` value is echoed as-is. -/
def c8ReturnedRecord : EmbeddingRecord :=
  { id := "e1", content_type := "text", content_hash := "h",
    embedding_vector := [1, 2], model_name := "m", dimensions := 3,
    metadata := "" }

/-- C8 counterexample: `get_embedding_by_hash` echoes the stored
`dimensions` column without recomputing it, so a stored row whose
`dimensions` disagrees with its vector length is returned unchanged,
violating the claimed invariant for hash-lookup records. -/
theorem c8_counterexample :
    getEmbeddingByHash false [c8BadRow] "h" = some c8ReturnedRecord ∧
    c8ReturnedRecord.dimensions ≠ (c8ReturnedRecord.embedding_vector.length : Int) := by
  constructor
  · rfl
  · decide

/-- C8 (amended): every record `generate_embedding` returns has
`dimensions` equal to its vector's length (the code computes it as
`len(embedding_vector)`), every row `_store_embedding` writes satisfies
the same equation, and a record returned by `get_embedding_by_hash`
satisfies it provided the stored row it echoes does — the lookup itself
neither recomputes nor checks the stored value. -/
theorem c8_dimensions_invariant :
    (∀ (env : EmbGenEnv) (t : List StoredEmbeddingRow) (c ct m : String)
        (r : EmbeddingRecord) (t' : List StoredEmbeddingRow),
      generateEmbedding env t c ct m = (Except.ok r, t') →
      r.dimensions = (r.embedding_vector.length : Int)) ∧
    (∀ (embedding_id ct ch : String) (v : List ℚ) (m md : String),
      (mkStoredEmbeddingRow embedding_id ct ch v m md).dimensions =
        ((mkStoredEmbeddingRow embedding_id ct ch v m md).embedding_vector.length : Int)) ∧
    (∀ (qr : Bool) (table : List StoredEmbeddingRow) (h : String)
        (r : EmbeddingRecord),
      getEmbeddingByHash qr table h = some r →
      (∀ row ∈ table, row.dimensions = (row.embedding_vector.length : Int)) →
      r.dimensions = (r.embedding_vector.length : Int)) := by
  refine ⟨?_, ?_, ?_⟩
  · intro env t c ct m r t' h
    cases hrun : env.run c m with
    | raises msg => simp [generateEmbedding, hrun] at h
    | rows rs =>
        cases rs with
        | nil => simp [generateEmbedding, hrun] at h
        | cons r0 rest =>
            simp only [generateEmbedding, hrun] at h
            injection h with h1 h2
            injection h1 with h3
            rw [← h3]
  · intro embedding_id ct ch v m md
    rfl
  · intro qr table h r hlook hrows
    cases qr with
    | true => simp [getEmbeddingByHash] at hlook
    | false =>
        unfold getEmbeddingByHash at hlook
        rw [if_neg (show ¬(false = true) by decide)] at hlook
        cases hfind : table.find? (fun row => row.content_hash = h) with
        | none =>
            rw [hfind] at hlook
            exact Option.noConfusion hlook
        | some row =>
            rw [hfind] at hlook
            injection hlook with h1
            rw [← h1]
            exact hrows row (List.mem_of_find?_eq_some hfind)

/-- Environment for the C8 witness: the embedding query returns a
four-dimensional vector. -/
def c8Env : EmbGenEnv :=
  { run := fun _ _ => QueryOutcome.rows [⟨[1, 2, 3, 4], "md"⟩]
    audit := AuditOutcome.ok
    genId := "eid"
    sha256Hex := fun _ => "hash" }

/-- A stored row that does satisfy the invariant, for the C8 witness. -/
def c8GoodRow : StoredEmbeddingRow :=
  { id := "e2", content_type := "text", content_hash := "h2",
    embedding_vector := [5, 6], model_name := "m", dimensions := 2,
    metadata := "" }

/-- C8 witness: the amended invariant applied at a concrete generation
call and a concrete conforming hash lookup. -/
theorem c8_dimensions_witness :
    (generateEmbedding c8Env [] "doc" "text" "m" =
        (Except.ok
          { id := "eid", content_type := "text", content_hash := "hash",
            embedding_vector := [1, 2, 3, 4], model_name := "m",
            dimensions := 4, metadata := "md" },
         [mkStoredEmbeddingRow "eid" "text" "hash" [1, 2, 3, 4] "m" "md"]) ∧
      (4 : Int) = (([1, 2, 3, 4] : List ℚ).length : Int)) ∧
    (getEmbeddingByHash false [c8GoodRow] "h2" =
        some
          { id := "e2", content_type := "text", content_hash := "h2",
            embedding_vector := [5, 6], model_name := "m", dimensions := 2,
            metadata := "" } ∧
      (2 : Int) = (([5, 6] : List ℚ).length : Int)) :=
  ⟨⟨rfl,
    c8_dimensions_invariant.1 c8Env [] "doc" "text" "m" _ _ rfl⟩,
   ⟨rfl,
    c8_dimensions_invariant.2.2 false [c8GoodRow] "h2" _ rfl
      (by intro row hrow
          simp only [List.mem_singleton] at hrow
          subst hrow
          decide)⟩⟩

/-- Boolean success test on a modelled Python call result. -/
def exceptIsOk {ε α : Type} : Except ε α → Bool
  | Except.ok _ => true
  | Except.error _ => false

/-- Helper: the result component of `generate_text` does not depend on the
audit-table contents (the table is only written, never read). -/
theorem generateText_fst_table (env : TextGenEnv) (t t' : List String)
    (p m : String) (par : GenParams) :
    (generateText env t p m par).1 = (generateText env t' p m par).1 := by
  cases h : env.run p par m with
  | raises msg => simp [generateText, h]
  | rows rs => cases rs <;> simp [generateText, h]

/-- Helper: the items of `batch_generate_text` are the per-prompt results
of `generate_text`, in input order, failures mapped to error-tagged
entries. -/
theorem batchGenerateText_fst (env : TextGenEnv) (t : List String)
    (prompts : List String) (m : String) (par : GenParams) :
    (batchGenerateText env t prompts m par).1 =
      prompts.map (fun p =>
        match (generateText env [] p m par).1 with
        | Except.ok r => BatchTextItem.success r
        | Except.error e => BatchTextItem.failure e p "failed") := by
  induction prompts generalizing t with
  | nil => rfl
  | cons p ps ih =>
      cases hg : generateText env t p m par with
      | mk res t2 =>
          cases hb : batchGenerateText env t2 ps m par with
          | mk rest t3 =>
              have hres : (generateText env [] p m par).1 = res := by
                rw [generateText_fst_table env [] t p m par, hg]
              have hrest : rest =
                  ps.map (fun p' =>
                    match (generateText env [] p' m par).1 with
                    | Except.ok r => BatchTextItem.success r
                    | Except.error e => BatchTextItem.failure e p' "failed") := by
                have := ih t2
                rw [hb] at this
                exact this
              simp only [batchGenerateText, hg, hb, List.map_cons, hres, hrest]

/-- Helper: the result component of `generate_embedding` does not depend
on the audit-table contents. -/
theorem generateEmbedding_fst_table (env : EmbGenEnv)
    (t t' : List StoredEmbeddingRow) (c ct m : String) :
    (generateEmbedding env t c ct m).1 = (generateEmbedding env t' c ct m).1 := by
  cases h : env.run c m with
  | raises msg => simp [generateEmbedding, h]
  | rows rs => cases rs <;> simp [generateEmbedding, h]

/-- Helper: the items of `batch_generate_embeddings` are the per-content
results of `generate_embedding`, in input order. -/
theorem batchGenerateEmbeddings_fst (env : EmbGenEnv)
    (t : List StoredEmbeddingRow) (contents : List String) (ct m : String) :
    (batchGenerateEmbeddings env t contents ct m).1 =
      contents.map (fun c =>
        match (generateEmbedding env [] c ct m).1 with
        | Except.ok r => BatchEmbItem.success r
        | Except.error e => BatchEmbItem.failure e c "failed") := by
  induction contents generalizing t with
  | nil => rfl
  | cons c cs ih =>
      cases hg : generateEmbedding env t c ct m with
      | mk res t2 =>
          cases hb : batchGenerateEmbeddings env t2 cs ct m with
          | mk rest t3 =>
              have hres : (generateEmbedding env [] c ct m).1 = res := by
                rw [generateEmbedding_fst_table env [] t c ct m, hg]
              have hrest : rest =
                  cs.map (fun c' =>
                    match (generateEmbedding env [] c' ct m).1 with
                    | Except.ok r => BatchEmbItem.success r
                    | Except.error e => BatchEmbItem.failure e c' "failed") := by
                have := ih t2
                rw [hb] at this
                exact this
              simp only [batchGenerateEmbeddings, hg, hb, List.map_cons, hres, hrest]

/-- C3: a batch call on N inputs of which exactly one fails returns N
entries in input order: every non-failing position holds a success record
and the failing position holds the error-tagged entry (with the failing
input echoed and `status = "failed"`); the failure aborts nothing.  Stated
for `batch_generate_text` and `batch_generate_embeddings`. -/
theorem c3_batch_single_failure
    (env : TextGenEnv) (t : List String) (prompts : List String)
    (m : String) (par : GenParams) (j : Nat) (hj : j < prompts.length)
    (hok : ∀ i : Fin prompts.length, i.val ≠ j →
      exceptIsOk (generateText env [] (prompts.get i) m par).1 = true)
    (hfail : exceptIsOk (generateText env [] (prompts.get ⟨j, hj⟩) m par).1 = false)
    (enve : EmbGenEnv) (te : List StoredEmbeddingRow) (contents : List String)
    (ct mn : String) (k : Nat) (hk : k < contents.length)
    (hoke : ∀ i : Fin contents.length, i.val ≠ k →
      exceptIsOk (generateEmbedding enve [] (contents.get i) ct mn).1 = true)
    (hfaile : exceptIsOk (generateEmbedding enve [] (contents.get ⟨k, hk⟩) ct mn).1 = false) :
    ((batchGenerateText env t prompts m par).1.length = prompts.length ∧
      (∀ i : Fin prompts.length, i.val ≠ j →
        ∃ r, (batchGenerateText env t prompts m par).1.get? i.val =
          some (BatchTextItem.success r)) ∧
      (∃ e, (batchGenerateText env t prompts m par).1.get? j =
        some (BatchTextItem.failure e (prompts.get ⟨j, hj⟩) "failed"))) ∧
    ((batchGenerateEmbeddings enve te contents ct mn).1.length = contents.length ∧
      (∀ i : Fin contents.length, i.val ≠ k →
        ∃ r, (batchGenerateEmbeddings enve te contents ct mn).1.get? i.val =
          some (BatchEmbItem.success r)) ∧
      (∃ e, (batchGenerateEmbeddings enve te contents ct mn).1.get? k =
        some (BatchEmbItem.failure e (contents.get ⟨k, hk⟩) "failed"))) := by
  rw [batchGenerateText_fst, batchGenerateEmbeddings_fst]
  have hgj : prompts.get? j = some (prompts.get ⟨j, hj⟩) := List.get?_eq_get hj
  have hgk : contents.get? k = some (contents.get ⟨k, hk⟩) := List.get?_eq_get hk
  refine ⟨⟨List.length_map _ _, ?_, ?_⟩, List.length_map _ _, ?_, ?_⟩
  · intro i hi
    have hg : prompts.get? i.val = some (prompts.get i) := List.get?_eq_get i.isLt
    rw [List.get?_map, hg]
    cases hres : (generateText env [] (prompts.get i) m par).1 with
    | ok r =>
        exact ⟨r, by simp only [List.get_eq_getElem] at hres; simp [hres]⟩
    | error e =>
        have := hok i hi
        rw [hres] at this
        simp [exceptIsOk] at this
  · rw [List.get?_map, hgj]
    cases hres : (generateText env [] (prompts.get ⟨j, hj⟩) m par).1 with
    | ok r =>
        rw [hres] at hfail
        simp [exceptIsOk] at hfail
    | error e =>
        exact ⟨e, by simp only [List.get_eq_getElem] at hres; simp [hres]⟩
  · intro i hi
    have hg : contents.get? i.val = some (contents.get i) := List.get?_eq_get i.isLt
    rw [List.get?_map, hg]
    cases hres : (generateEmbedding enve [] (contents.get i) ct mn).1 with
    | ok r =>
        exact ⟨r, by simp only [List.get_eq_getElem] at hres; simp [hres]⟩
    | error e =>
        have := hoke i hi
        rw [hres] at this
        simp [exceptIsOk] at this
  · rw [List.get?_map, hgk]
    cases hres : (generateEmbedding enve [] (contents.get ⟨k, hk⟩) ct mn).1 with
    | ok r =>
        rw [hres] at hfaile
        simp [exceptIsOk] at hfaile
    | error e =>
        exact ⟨e, by simp only [List.get_eq_getElem] at hres; simp [hres]⟩

/-- Text environment for the C3 witness: the warehouse raises exactly for
the prompt `b`. -/
def c3TextEnv : TextGenEnv :=
  { run := fun p _ _ =>
      if p = "b" then QueryOutcome.raises "boom" else QueryOutcome.rows [⟨"out"⟩]
    audit := AuditOutcome.ok
    genId := "gid" }

/-- Embedding environment for the C3 witness: the warehouse raises exactly
for the content `y`. -/
def c3EmbEnv : EmbGenEnv :=
  { run := fun c _ =>
      if c = "y" then QueryOutcome.raises "boom" else QueryOutcome.rows [⟨[1], "md"⟩]
    audit := AuditOutcome.ok
    genId := "eid"
    sha256Hex := fun _ => "hash" }

/-- C3 witness: a three-prompt text batch whose second item fails and a
two-content embedding batch whose second item fails, run through
`c3_batch_single_failure`. -/
theorem c3_batch_single_failure_witness :
    ((∀ i : Fin (["a", "b", "c"] : List String).length, i.val ≠ 1 →
        exceptIsOk (generateText c3TextEnv [] ((["a", "b", "c"] : List String).get i)
          "m" ⟨1, 64, 1, 40⟩).1 = true) ∧
      exceptIsOk (generateText c3TextEnv []
        ((["a", "b", "c"] : List String).get ⟨1, by decide⟩) "m" ⟨1, 64, 1, 40⟩).1 = false) ∧
    ((∀ i : Fin (["x", "y"] : List String).length, i.val ≠ 1 →
        exceptIsOk (generateEmbedding c3EmbEnv [] ((["x", "y"] : List String).get i)
          "text" "em").1 = true) ∧
      exceptIsOk (generateEmbedding c3EmbEnv []
        ((["x", "y"] : List String).get ⟨1, by decide⟩) "text" "em").1 = false) ∧
    ((batchGenerateText c3TextEnv [] ["a", "b", "c"] "m" ⟨1, 64, 1, 40⟩).1.length = 3 ∧
      (∃ e, (batchGenerateText c3TextEnv [] ["a", "b", "c"] "m" ⟨1, 64, 1, 40⟩).1.get? 1 =
        some (BatchTextItem.failure e "b" "failed")) ∧
      (batchGenerateEmbeddings c3EmbEnv [] ["x", "y"] "text" "em").1.length = 2 ∧
      (∃ e, (batchGenerateEmbeddings c3EmbEnv [] ["x", "y"] "text" "em").1.get? 1 =
        some (BatchEmbItem.failure e "y" "failed"))) := by
  have H := c3_batch_single_failure c3TextEnv [] ["a", "b", "c"] "m" ⟨1, 64, 1, 40⟩
    1 (by decide) (by decide) (by decide)
    c3EmbEnv [] ["x", "y"] "text" "em" 1 (by decide) (by decide) (by decide)
  exact ⟨⟨by decide, by decide⟩, ⟨by decide, by decide⟩,
    H.1.1, H.1.2.2, H.2.1, H.2.2.2⟩

/-- C10: the batch endpoints take every generation parameter from the
FIRST request item — two request lists with the same per-item
prompts/contents and the same first item produce identical responses, so
parameters supplied on later items have no effect — and an empty item
list makes the handler raise (an HTTP 500) instead of returning an empty
result list. -/
theorem c10_batch_endpoints_first_item_params :
    (∀ (env : TextGenEnv) (t : List String),
      batchGenerateTextEndpoint env t [] = Except.error 500) ∧
    (∀ (env : TextGenEnv) (t : List String) (first : TextGenerationRequest)
        (rest rest' : List TextGenerationRequest),
      rest.map (fun r => r.prompt) = rest'.map (fun r => r.prompt) →
      batchGenerateTextEndpoint env t (first :: rest) =
        batchGenerateTextEndpoint env t (first :: rest')) ∧
    (∀ (env : EmbGenEnv) (t : List StoredEmbeddingRow),
      batchGenerateEmbeddingsEndpoint env t [] = Except.error 500) ∧
    (∀ (env : EmbGenEnv) (t : List StoredEmbeddingRow) (first : EmbeddingRequest)
        (rest rest' : List EmbeddingRequest),
      rest.map (fun r => r.content) = rest'.map (fun r => r.content) →
      batchGenerateEmbeddingsEndpoint env t (first :: rest) =
        batchGenerateEmbeddingsEndpoint env t (first :: rest')) := by
  refine ⟨fun env t => rfl, ?_, fun env t => rfl, ?_⟩
  · intro env t first rest rest' h
    simp only [batchGenerateTextEndpoint, List.map_cons, h]
  · intro env t first rest rest' h
    simp only [batchGenerateEmbeddingsEndpoint, List.map_cons, h]

/-- Text environment for the C10 witness. -/
def c10TextEnv : TextGenEnv :=
  { run := fun _ _ _ => QueryOutcome.rows [⟨"out"⟩]
    audit := AuditOutcome.ok
    genId := "gid" }

/-- Embedding environment for the C10 witness. -/
def c10EmbEnv : EmbGenEnv :=
  { run := fun _ _ => QueryOutcome.rows [⟨[1], "md"⟩]
    audit := AuditOutcome.ok
    genId := "eid"
    sha256Hex := fun _ => "hash" }

/-- C10 witness: two text batch requests and two embedding batch requests
that differ only in the parameters of their second item produce identical
responses. -/
theorem c10_batch_endpoints_witness :
    ([({ prompt := "q", model_name := "m2", temperature := 1/5, max_tokens := 16,
          top_p := 1/2, top_k := 5 } : TextGenerationRequest)].map (fun r => r.prompt) =
      [({ prompt := "q", model_name := "other", temperature := 9/10, max_tokens := 999,
          top_p := 1, top_k := 77 } : TextGenerationRequest)].map (fun r => r.prompt)) ∧
    (batchGenerateTextEndpoint c10TextEnv []
        [{ prompt := "p", model_name := "m", temperature := 7/10, max_tokens := 64,
            top_p := 9/10, top_k := 40 },
          { prompt := "q", model_name := "m2", temperature := 1/5, max_tokens := 16,
            top_p := 1/2, top_k := 5 }] =
      batchGenerateTextEndpoint c10TextEnv []
        [{ prompt := "p", model_name := "m", temperature := 7/10, max_tokens := 64,
            top_p := 9/10, top_k := 40 },
          { prompt := "q", model_name := "other", temperature := 9/10, max_tokens := 999,
            top_p := 1, top_k := 77 }]) ∧
    ([({ content := "d", content_type := "text", model_name := "e2" } : EmbeddingRequest)].map
        (fun r => r.content) =
      [({ content := "d", content_type := "image", model_name := "e3" } : EmbeddingRequest)].map
        (fun r => r.content)) ∧
    (batchGenerateEmbeddingsEndpoint c10EmbEnv []
        [{ content := "c", content_type := "text", model_name := "e" },
          { content := "d", content_type := "text", model_name := "e2" }] =
      batchGenerateEmbeddingsEndpoint c10EmbEnv []
        [{ content := "c", content_type := "text", model_name := "e" },
          { content := "d", content_type := "image", model_name := "e3" }]) :=
  ⟨rfl,
   c10_batch_endpoints_first_item_params.2.1 c10TextEnv []
     { prompt := "p", model_name := "m", temperature := 7/10, max_tokens := 64,
       top_p := 9/10, top_k := 40 }
     [{ prompt := "q", model_name := "m2", temperature := 1/5, max_tokens := 16,
        top_p := 1/2, top_k := 5 }]
     [{ prompt := "q", model_name := "other", temperature := 9/10, max_tokens := 999,
        top_p := 1, top_k := 77 }] rfl,
   rfl,
   c10_batch_endpoints_first_item_params.2.2.2 c10EmbEnv []
     { content := "c", content_type := "text", model_name := "e" }
     [{ content := "d", content_type := "text", model_name := "e2" }]
     [{ content := "d", content_type := "image", model_name := "e3" }] rfl⟩

end BigQueryAI
